import Mathlib

/-!
Shallow embedding of the gasless-voting relayer service
(`src/relayer-service/server.js`) and of the vote-processing path of the
`GasOptimizedVotingSystem` Solidity contract, together with theorems
settling the specification claims about them.

Conventions:
* JavaScript request-body values are modelled by `JVal` (absent fields are
  `JVal.undef`); JS truthiness is `truthy`.
* `ethers.BigNumber.from` is modelled by `toBigNumber` (integers and
  decimal strings; hex strings are not needed by any claim).
* Ledger (blockchain) interaction is an oracle record `Ledger`; every
  invocation of a ledger-client operation performed by the handler is
  recorded, in order, in the `calls` list of the outcome, so that
  "no transaction was submitted" and "zero ledger calls" are statable.
* Money amounts are in wei (`Nat`); `parseUnits(n, "gwei")` is `n * 10^9`.
-/

/-- A JavaScript value as it can appear in a parsed JSON request body.
`undef` stands for an absent field. (`NaN` and objects are not needed.) -/
inductive JVal where
  | undef
  | jnull
  | jbool (b : Bool)
  | jnum (n : Int)
  | jstr (s : String)
deriving DecidableEq, Repr

/-- JavaScript truthiness of a `JVal` (`!v` in JS is `!truthy v`). -/
def truthy : JVal → Bool
  | .undef => false
  | .jnull => false
  | .jbool b => b
  | .jnum n => n != 0
  | .jstr s => s != ""

/-- Value of a nonempty list of decimal digit characters; `none` when some
character is not a digit or the list is empty. -/
def decDigits : List Char → Option Nat
  | [] => none
  | l => l.foldl
      (fun acc c =>
        acc.bind fun n => if c.isDigit then some (n * 10 + (c.toNat - 48)) else none)
      (some 0)

/-- `ethers.BigNumber.from` on a request value: succeeds on integers and on
(optionally negative) decimal strings, fails (throws) on everything else
(hex strings are not needed by any claim). -/
def toBigNumber : JVal → Option Int
  | .jnum n => some n
  | .jstr s =>
      match s.data with
      | '-' :: rest => (decDigits rest).map (fun n => -(n : Int))
      | l => (decDigits l).map Int.ofNat
  | _ => none

/-- Whether the first list leads (starts) the second. -/
def leadsList : List Char → List Char → Bool
  | [], _ => true
  | _ :: _, [] => false
  | a :: as, b :: bs => a = b && leadsList as bs

/-- Whether `pat` occurs as a contiguous run inside `l`. -/
def containsRun (pat : List Char) : List Char → Bool
  | [] => leadsList pat []
  | b :: bs => leadsList pat (b :: bs) || containsRun pat bs

/-- `String.prototype.includes` (case-sensitive substring test), used by the
handler on `error.message`. -/
def strContains (s pat : String) : Bool :=
  containsRun pat.data s.data

/-- `String.prototype.toLowerCase` (ASCII suffices for addresses), defined
over the character list so it evaluates in the kernel. -/
def jsToLower (s : String) : String :=
  String.mk (s.data.map Char.toLower)

/-- Transaction overrides passed to `contract.metaVote`. -/
structure TxOptions where
  gasLimit : Nat
  maxFeePerGas : Nat
  maxPriorityFeePerGas : Nat
  nonce : Option Nat
deriving DecidableEq, Repr

/-- One invocation of a ledger-client operation.  `estimateGas` and
`getGasPrice` exist in the ledger client (the `/wallet-info` endpoint uses
`getGasPrice`); the theorems show the submit path never emits them. -/
inductive LedgerCall where
  | getPollDetails (pollId : Int)
  | hasVoted (pollId : Int) (voter : JVal)
  | getBalance
  | estimateGas
  | getGasPrice
  | metaVote (pollId candidateId : Int) (voter : JVal) (opts : TxOptions)
deriving DecidableEq, Repr

/-- The tuple returned by the contract method `getPollDetails`. -/
structure PollDetails where
  title : String
  creator : String
  endTime : Nat
  candidateCount : Nat
  isPublic : Bool
  voterCount : Nat
  maxVoters : Nat
deriving DecidableEq, Repr

/-- Oracle for the behaviour of the blockchain during one handling of a
`POST /submit-vote` request.  `none` models the corresponding call throwing
(network failure, or client-side argument rejection by the library). -/
structure Ledger where
  getPollDetails : Int → Option PollDetails
  hasVotedRes : Int → JVal → Option Bool
  /-- `provider.getBalance(wallet.address)`; `none` = the call throws. -/
  balanceRes : Option Nat
  /-- outcome of `contract.metaVote`: `none` = transaction accepted into the
  pending pool (a handle is returned), `some m` = throws with `error.message = m`. -/
  metaVoteRes : Option String
  /-- the network's live suggested fee (`provider.getGasPrice`); the submit
  path must not depend on it. -/
  suggestedGasPrice : Nat

/-- The parsed request body of `POST /submit-vote`. -/
structure VoteRequest where
  pollId : JVal
  candidateId : JVal
  voter : JVal
  signature : JVal
  merkleProof : List String
deriving DecidableEq, Repr

/-- HTTP response produced by the handler. -/
structure SubmitResponse where
  status : Nat
  success : Bool
  message : String
deriving DecidableEq, Repr

/-- Response plus the ordered list of ledger calls the handler made. -/
structure SubmitOutcome where
  response : SubmitResponse
  calls : List LedgerCall
deriving DecidableEq, Repr

def missingParamsMsg : String :=
  "Missing required parameters: pollId, candidateId, voter, signature"

/-- The source sends `Invalid parameters format: ${error.message}`; the
library error text is not modelled, only the fixed prefix. -/
def invalidParamsMsg : String := "Invalid parameters format"

def alreadyVotedMsg : String := "Voter has already voted in this poll"

def relayerNeedsFundsMsg : String :=
  "Relayer service wallet needs more funds. Please try again later or contact the administrator."

def relayerCannotVoteMsg : String :=
  "The relayer wallet cannot vote. Please use a different wallet."

def voteSubmittedMsg : String := "Vote submitted successfully"

/-- `ethers.utils.parseUnits("80", "gwei").mul(BigNumber.from("500000"))`. -/
def estimatedGasCost : Nat := 80 * 10 ^ 9 * 500000

/-- The fixed transaction options of every original vote submission:
`gasLimit = 500000`, `maxFeePerGas = 80 gwei`, `maxPriorityFeePerGas = 30 gwei`,
no explicit nonce. -/
def voteTxOptions : TxOptions :=
  { gasLimit := 500000
    maxFeePerGas := 80 * 10 ^ 9
    maxPriorityFeePerGas := 30 * 10 ^ 9
    nonce := none }

/-- The error-message classification of the handler's submission `catch`
block (`error.message.includes(...)` chain, in source order). -/
def classifySubmitError (m : String) : SubmitResponse :=
  if strContains m "Bad signature" then
    ⟨400, false, "Invalid signature provided for vote verification"⟩
  else if strContains m "Already voted" then
    ⟨400, false, alreadyVotedMsg⟩
  else if strContains m "Insufficient relayer funds" || strContains m "doesn\x27t have enough funds" then
    ⟨400, false, "Insufficient funds from poll creator to cover gas fees"⟩
  else if strContains m "insufficient funds" then
    ⟨400, false, "Relayer wallet needs more funds. Please try again later."⟩
  else if strContains m "nonce" then
    ⟨500, false, "Transaction nonce error. Please try again."⟩
  else if strContains m "gas" then
    ⟨500, false, "Transaction gas error. Please try again later."⟩
  else
    ⟨500, false, "Failed to submit vote. Please try again later."⟩

/-- The `POST /submit-vote` handler of `server.js`, step by step:
1. destructure and validate presence: `!pollId || candidateId === undefined
   || !voter || !signature` → 400 "Missing required parameters";
2. `BigNumber.from` conversions of `pollId`, `candidateId`; a throw → 400
   "Invalid parameters format";
3. `getPollDetails` (a throw is swallowed — "Continue anyway"); when it
   succeeds, `candidateIdBN.gte(candidateCount)` → 400 "Invalid candidate ID";
4. `hasVoted` (a throw → 500 "Failed to check voter status"; `true` → 400
   "Voter has already voted in this poll");
5. `checkWalletBalance` (`getBalance`, a throw yields 0); balance below
   `estimatedGasCost` → 400 relayer-needs-funds;
6. `voter.toLowerCase() === wallet.address.toLowerCase()` (`jsToLower`) → 400
   relayer-cannot-vote (a non-string voter makes `toLowerCase` throw, which
   the outer catch turns into 500 "Internal server error");
7. `contract.metaVote` with the fixed `voteTxOptions`; success → 200
   response, a throw → `classifySubmitError`. -/
def submitVote (wallet : String) (L : Ledger) (req : VoteRequest) : SubmitOutcome :=
  if ¬ truthy req.pollId ∨ req.candidateId = JVal.undef ∨
      ¬ truthy req.voter ∨ ¬ truthy req.signature then
    ⟨⟨400, false, missingParamsMsg⟩, []⟩
  else
    match toBigNumber req.pollId, toBigNumber req.candidateId with
    | none, _ => ⟨⟨400, false, invalidParamsMsg⟩, []⟩
    | some _, none => ⟨⟨400, false, invalidParamsMsg⟩, []⟩
    | some pollIdBN, some candidateIdBN =>
      let calls0 := [LedgerCall.getPollDetails pollIdBN]
      let pollGate : Option SubmitResponse :=
        match L.getPollDetails pollIdBN with
        | some d =>
            if (d.candidateCount : Int) ≤ candidateIdBN then
              some ⟨400, false, "Invalid candidate ID"⟩
            else none
        | none => none
      match pollGate with
      | some resp => ⟨resp, calls0⟩
      | none =>
        let calls1 := calls0 ++ [LedgerCall.hasVoted pollIdBN req.voter]
        match L.hasVotedRes pollIdBN req.voter with
        | none => ⟨⟨500, false, "Failed to check voter status"⟩, calls1⟩
        | some true => ⟨⟨400, false, alreadyVotedMsg⟩, calls1⟩
        | some false =>
          let balance : Nat := L.balanceRes.getD 0
          let calls2 := calls1 ++ [LedgerCall.getBalance]
          if balance < estimatedGasCost then
            ⟨⟨400, false, relayerNeedsFundsMsg⟩, calls2⟩
          else
            match req.voter with
            | .jstr v =>
              if jsToLower v = jsToLower wallet then
                ⟨⟨400, false, relayerCannotVoteMsg⟩, calls2⟩
              else
                let calls3 := calls2 ++
                  [LedgerCall.metaVote pollIdBN candidateIdBN req.voter voteTxOptions]
                match L.metaVoteRes with
                | none => ⟨⟨200, true, voteSubmittedMsg⟩, calls3⟩
                | some m => ⟨classifySubmitError m, calls3⟩
            | _ => ⟨⟨500, false, "Internal server error"⟩, calls2⟩

/-! ## Confirmation monitor (`checkTransactionConfirmation` in `server.js`) -/

/-- Result of one `provider.getTransactionReceipt` call on the original
transaction: `pending` = `null` receipt, `mined s` = a receipt with
`receipt.status = s`, `errored` = the call throws. -/
inductive ReceiptRes where
  | pending
  | mined (status : Nat)
  | errored
deriving DecidableEq, Repr

/-- The part of `provider.getTransaction(tx.hash)` the monitor uses. -/
structure OrigTx where
  nonce : Nat
deriving DecidableEq, Repr

/-- Oracle for the blockchain during one monitoring run. -/
structure MonLedger where
  /-- receipt status observed at the given (1-based) attempt number. -/
  receiptAt : Nat → ReceiptRes
  /-- `provider.getTransaction(tx.hash)`, queried before replacing. -/
  getTransaction : Option OrigTx
  /-- `none` = the replacement `metaVote` is accepted, `some m` = it throws. -/
  replaceRes : Option String
  /-- `contract.hasVoted` double-check after a successful receipt;
  `none` = the check throws. -/
  hasVotedAfter : Option Bool

/-- Terminal state of one monitoring run. -/
inductive MonOutcome where
  /-- success receipt; carries the `hasVoted` double-check result. -/
  | confirmed (voteRecorded : Option Bool)
  | reverted
  /-- stuck; a replacement with the given nonce was submitted. -/
  | replaced (nonce : Nat)
  /-- stuck, but the replacement could not be submitted. -/
  | replaceFailed
  /-- polling errored out (or fuel ran out); monitoring just stops. -/
  | gaveUp
deriving DecidableEq, Repr

/-- Observable trace of one monitoring run: how many receipt checks were made
on the original transaction, the rescheduling delays (ms), every replacement
transaction submitted (with its options), how many receipt checks were made
on a replacement, and the terminal outcome. -/
structure MonTrace where
  receiptChecks : Nat
  delays : List Nat
  replacements : List TxOptions
  replacementChecks : Nat
  outcome : MonOutcome
deriving DecidableEq, Repr

def maxConfirmationAttempts : Nat := 5

/-- Options of the replacement transaction for a stuck original:
`gasLimit = 600000`, `maxFeePerGas = 100 gwei`, `maxPriorityFeePerGas = 35 gwei`,
explicitly reusing the original transaction's nonce. -/
def replacementTxOptions (nonce : Nat) : TxOptions :=
  { gasLimit := 600000
    maxFeePerGas := 100 * 10 ^ 9
    maxPriorityFeePerGas := 35 * 10 ^ 9
    nonce := some nonce }

/-- One call of `checkTransactionConfirmation`, with `attempts` the value of
`confirmationAttempts` before the increment at the top of the function.
`fuel` only bounds the recursion; from the entry point it never runs out
because the source guard `confirmationAttempts < maxConfirmationAttempts`
is checked exactly as in the code.

Branches, as in the source: a `null` receipt reschedules after
`5000 * confirmationAttempts` ms while attempts remain, and on the last
attempt looks up the original transaction and submits one replacement with
`replacementTxOptions` (same nonce, higher fees), then schedules a single
receipt check of the replacement; a mined receipt is terminal
(status 1 → confirmed plus a `hasVoted` double-check, else reverted); an
error rescheduls while attempts remain and otherwise just stops. -/
def monitorLoop (L : MonLedger) : Nat → Nat → MonTrace
  | _, 0 => ⟨0, [], [], 0, .gaveUp⟩
  | attempts, fuel + 1 =>
    let a := attempts + 1
    match L.receiptAt a with
    | .pending =>
      if a < maxConfirmationAttempts then
        let t := monitorLoop L a fuel
        ⟨t.receiptChecks + 1, 5000 * a :: t.delays, t.replacements,
          t.replacementChecks, t.outcome⟩
      else
        match L.getTransaction with
        | none => ⟨1, [], [], 0, .replaceFailed⟩
        | some otx =>
          match L.replaceRes with
          | some _ => ⟨1, [], [replacementTxOptions otx.nonce], 0, .replaceFailed⟩
          | none => ⟨1, [], [replacementTxOptions otx.nonce], 1, .replaced otx.nonce⟩
    | .mined status =>
      if status = 1 then ⟨1, [], [], 0, .confirmed L.hasVotedAfter⟩
      else ⟨1, [], [], 0, .reverted⟩
    | .errored =>
      if a < maxConfirmationAttempts then
        let t := monitorLoop L a fuel
        ⟨t.receiptChecks + 1, 5000 * a :: t.delays, t.replacements,
          t.replacementChecks, t.outcome⟩
      else ⟨1, [], [], 0, .gaveUp⟩

/-- The whole monitoring of one submitted transaction, started by
`setTimeout(checkTransactionConfirmation, 5000)` with
`confirmationAttempts = 0`. -/
def runMonitor (L : MonLedger) : MonTrace :=
  monitorLoop L 0 maxConfirmationAttempts

/-! ## Contract vote path (`GasOptimizedVotingSystem._processVote`) -/

/-- The contract's packed `Poll` struct. Addresses are `uint160` values. -/
structure CPoll where
  title : String
  creator : Nat
  endTime : Nat
  candidateCount : Nat
  isPublic : Bool
  voterCount : Nat
  maxVoters : Nat
  whitelistMerkleDepth : Nat
deriving DecidableEq, Repr

/-- Contract storage relevant to vote processing: the poll array, the vote
bitmap `voteMap[pollId][word]`, and candidate vote counts. -/
structure VotingState where
  polls : List CPoll
  voteMap : Nat → Nat → Nat
  candVotes : Nat → Nat → Nat

/-- `_processVote(_pollId, _candidateId, _voter)` under block timestamp
`now`: the `require` chain in source order (`Bad poll`, `Poll ended`,
`Bad candidate`, `Max voters reached`, bitmap `Already voted`), then the
bitmap/count updates.  `word = uint160(voter) >> 8`, `bit = voter & 0xff`. -/
def processVote (now : Nat) (st : VotingState) (pollId candidateId voterAddr : Nat) :
    Except String VotingState :=
  if h : pollId < st.polls.length then
    let p := st.polls[pollId]
    if now ≤ p.endTime then
      if candidateId < p.candidateCount then
        if p.voterCount < p.maxVoters then
          let word := voterAddr / 256
          let bit := voterAddr % 256
          let mask := 2 ^ bit
          if st.voteMap pollId word &&& mask = 0 then
            Except.ok
              { polls := st.polls.set pollId { p with voterCount := p.voterCount + 1 }
                voteMap := fun pid w =>
                  if pid = pollId ∧ w = word then st.voteMap pid w ||| mask
                  else st.voteMap pid w
                candVotes := fun pid c =>
                  if pid = pollId ∧ c = candidateId then st.candVotes pid c + 1
                  else st.candVotes pid c }
          else Except.error "Already voted"
        else Except.error "Max voters reached"
      else Except.error "Bad candidate"
    else Except.error "Poll ended"
  else Except.error "Bad poll"

/-! ## Concrete inputs for the witnesses and counterexamples -/

/-- A concrete poll used by the witnesses: it has 3 candidates, 4 of at most
10 voters, and ended at unix time 100. -/
def examplePoll : PollDetails :=
  ⟨"Example poll", "0xCreator", 100, 3, true, 4, 10⟩

/-- A concrete blockchain used by the witnesses: poll 1 is `examplePoll`,
nobody has voted, the relayer has 1 MATIC, and submissions are accepted. -/
def exampleLedger : Ledger :=
  { getPollDetails := fun p => if p = 1 then some examplePoll else none
    hasVotedRes := fun _ _ => some false
    balanceRes := some (10 ^ 18)
    metaVoteRes := none
    suggestedGasPrice := 40 * 10 ^ 9 }

/-- A concrete, fully well-formed request for poll 1 and candidate 0. -/
def exampleRequest : VoteRequest :=
  ⟨JVal.jnum 1, JVal.jnum 0, JVal.jstr "0xVoterA", JVal.jstr "0xSigBytes", []⟩

/-- The relayer wallet address used by the concrete runs (the default
relayer address from `server.js`). -/
def relayerAddr : String := "0xF0B5381A05A8d8368C7D3af031F7B50e979CeA12"

/-- A poll that is over and full: it ended at unix time 100 and has
`voterCount = maxVoters = 10`. -/
def fullEndedPoll : PollDetails :=
  ⟨"Full ended poll", "0xCreator", 100, 3, true, 10, 10⟩

/-- A blockchain whose poll 1 is `fullEndedPoll`; everything else as in
`exampleLedger`. -/
def fullEndedLedger : Ledger :=
  { getPollDetails := fun p => if p = 1 then some fullEndedPoll else none
    hasVotedRes := fun _ _ => some false
    balanceRes := some (10 ^ 18)
    metaVoteRes := none
    suggestedGasPrice := 40 * 10 ^ 9 }

/-- Contract-side storage matching `examplePoll` at poll id 0. -/
def exampleCPoll : CPoll :=
  ⟨"Example poll", 0xC0FFEE, 100, 3, true, 4, 10, 0⟩

/-- Contract-side storage matching `fullEndedPoll` at poll id 0 (its end
time is pushed out so that the poll-full require is the one that fires). -/
def fullCPoll : CPoll :=
  ⟨"Full poll", 0xC0FFEE, 2000, 3, true, 10, 10, 0⟩

def exampleVotingState : VotingState :=
  ⟨[exampleCPoll], fun _ _ => 0, fun _ _ => 0⟩

def fullVotingState : VotingState :=
  ⟨[fullCPoll], fun _ _ => 0, fun _ _ => 0⟩

/-- Whether a ledger call is a `metaVote` submission. -/
def isMetaVote : LedgerCall → Bool
  | .metaVote _ _ _ _ => true
  | _ => false

/-- A blockchain on which everybody has already voted in every poll. -/
def votedLedger : Ledger :=
  { exampleLedger with hasVotedRes := fun _ _ => some true }

/-- A request in which the voter is the relayer wallet itself. -/
def selfVoteRequest : VoteRequest :=
  ⟨JVal.jnum 1, JVal.jnum 0, JVal.jstr relayerAddr, JVal.jstr "0xSigBytes", []⟩

/-- A blockchain client that, like the real library, rejects a non-string
voter argument client-side: the `hasVoted` contract call throws on it. -/
def strictLedger : Ledger :=
  { exampleLedger with
    hasVotedRes := fun _ v => match v with | .jstr _ => some false | _ => none }

/-- A blockchain on which the submitted transaction stays pending forever;
the original transaction is found at nonce 7. -/
def stuckLedger : MonLedger :=
  ⟨fun _ => ReceiptRes.pending, some ⟨7⟩, none, some true⟩

/-- A blockchain whose `metaVote` submission throws with a nonce-conflict
message. -/
def nonceErrLedger : Ledger :=
  { exampleLedger with metaVoteRes := some "nonce too low" }

/-- A ledger call is acceptable for the original submission path: it is not
a gas estimation, not a suggested-fee query, and any `metaVote` it makes
carries exactly the fixed `voteTxOptions`. -/
def submitCallOk : LedgerCall → Bool
  | .metaVote _ _ _ opts => decide (opts = voteTxOptions)
  | .estimateGas => false
  | .getGasPrice => false
  | _ => true

/-! ## Pipeline lemma and claim theorems -/

/-- If every pre-submission gate passes — the four fields are present, the
two numeric conversions succeed, the candidate gate passes (or the poll
lookup threw and was swallowed), the voter has not voted, the balance covers
`estimatedGasCost`, and the voter string is not the relayer — then the
handler reaches `contract.metaVote` with the fixed options, and the response
is determined by the submission outcome. -/
theorem submitVote_past_checks (wallet : String) (L : Ledger) (req : VoteRequest)
    (pid cid : Int) (v : String)
    (h1 : truthy req.pollId = true) (h2 : req.candidateId ≠ JVal.undef)
    (hv : req.voter = JVal.jstr v) (hvne : v ≠ "")
    (h4 : truthy req.signature = true)
    (hpid : toBigNumber req.pollId = some pid)
    (hcid : toBigNumber req.candidateId = some cid)
    (hgate : ∀ d, L.getPollDetails pid = some d → cid < (d.candidateCount : Int))
    (hvoted : L.hasVotedRes pid (JVal.jstr v) = some false)
    (hbal : estimatedGasCost ≤ L.balanceRes.getD 0)
    (hself : jsToLower v ≠ jsToLower wallet) :
    submitVote wallet L req =
      ⟨(match L.metaVoteRes with
        | none => ⟨200, true, voteSubmittedMsg⟩
        | some m => classifySubmitError m),
       [LedgerCall.getPollDetails pid, LedgerCall.hasVoted pid (JVal.jstr v),
        LedgerCall.getBalance,
        LedgerCall.metaVote pid cid (JVal.jstr v) voteTxOptions]⟩ := by
  have hvt : truthy req.voter = true := by
    rw [hv]; simpa [truthy] using hvne
  unfold submitVote
  rw [if_neg (by simp [h1, h2, hvt, h4])]
  rw [hpid, hcid]
  rcases hLd : L.getPollDetails pid with _ | d
  · simp only [hLd, hv, hvoted]
    rw [if_neg (Nat.not_lt.mpr hbal)]
    rw [if_neg hself]
    cases L.metaVoteRes <;> rfl
  · have hcd : ¬ ((d.candidateCount : Int) ≤ cid) := not_le.mpr (hgate d hLd)
    simp only [hLd, if_neg hcd, hv, hvoted]
    rw [if_neg (Nat.not_lt.mpr hbal)]
    rw [if_neg hself]
    cases L.metaVoteRes <;> rfl

example :
    (submitVote relayerAddr exampleLedger exampleRequest).response =
      ⟨200, true, voteSubmittedMsg⟩ := by decide

example :
    (submitVote relayerAddr exampleLedger exampleRequest).calls =
      [LedgerCall.getPollDetails 1, LedgerCall.hasVoted 1 (JVal.jstr "0xVoterA"),
       LedgerCall.getBalance,
       LedgerCall.metaVote 1 0 (JVal.jstr "0xVoterA") voteTxOptions] := by decide

example :
    runMonitor ⟨fun _ => ReceiptRes.pending, some ⟨7⟩, none, some true⟩ =
      ⟨5, [5000, 10000, 15000, 20000], [replacementTxOptions 7], 1,
        MonOutcome.replaced 7⟩ := by decide

/-! ## Claim theorems -/

/-- C1 (counterexample): a concrete submit-vote request for a poll whose end
time (100) is earlier than the current time (e.g. 1000), with every other
field valid, is NOT rejected with a "poll ended" reason: the handler replies
success 200 "Vote submitted successfully" and the `metaVote` transaction IS
submitted — the handler never compares `endTime` with the clock. -/
theorem pollEnded_cex :
    examplePoll.endTime < 1000 ∧
    exampleLedger.getPollDetails 1 = some examplePoll ∧
    submitVote relayerAddr exampleLedger exampleRequest =
      ⟨⟨200, true, voteSubmittedMsg⟩,
       [LedgerCall.getPollDetails 1, LedgerCall.hasVoted 1 (JVal.jstr "0xVoterA"),
        LedgerCall.getBalance,
        LedgerCall.metaVote 1 0 (JVal.jstr "0xVoterA") voteTxOptions]⟩ := by
  refine ⟨by decide, by decide, by decide⟩

/-- C1 (amended): the relayer performs no poll-ended eligibility check.  For
every current time `now` and every request whose poll (as read from the
ledger) has `endTime < now` but which passes all the checks the handler does
perform, the handler submits the transaction and replies success; the
"Poll ended" rejection lives solely in the contract, whose `_processVote`
reverts with "Poll ended" for any vote cast after a poll's end time. -/
theorem pollEnded_not_prechecked (now : Nat) (wallet : String) (L : Ledger)
    (req : VoteRequest) (pid cid : Int) (v : String) (d : PollDetails)
    (h1 : truthy req.pollId = true) (h2 : req.candidateId ≠ JVal.undef)
    (hv : req.voter = JVal.jstr v) (hvne : v ≠ "")
    (h4 : truthy req.signature = true)
    (hpid : toBigNumber req.pollId = some pid)
    (hcid : toBigNumber req.candidateId = some cid)
    (hd : L.getPollDetails pid = some d)
    (_hended : d.endTime < now)
    (hcand : cid < (d.candidateCount : Int))
    (hvoted : L.hasVotedRes pid (JVal.jstr v) = some false)
    (hbal : estimatedGasCost ≤ L.balanceRes.getD 0)
    (hself : jsToLower v ≠ jsToLower wallet)
    (hacc : L.metaVoteRes = none) :
    ((submitVote wallet L req).response = ⟨200, true, voteSubmittedMsg⟩ ∧
      LedgerCall.metaVote pid cid (JVal.jstr v) voteTxOptions ∈
        (submitVote wallet L req).calls) ∧
    (∀ (st : VotingState) (pollId candidateId voterAddr : Nat)
        (hlt : pollId < st.polls.length),
        st.polls[pollId].endTime < now →
        processVote now st pollId candidateId voterAddr =
          Except.error "Poll ended") := by
  have hgate : ∀ d', L.getPollDetails pid = some d' → cid < (d'.candidateCount : Int) := by
    intro d' hd'
    rw [hd] at hd'
    cases hd'
    exact hcand
  have hrun := submitVote_past_checks wallet L req pid cid v h1 h2 hv hvne h4
    hpid hcid hgate hvoted hbal hself
  constructor
  · rw [hrun, hacc]
    exact ⟨rfl, by simp⟩
  · intro st pollId candidateId voterAddr hlt hend
    unfold processVote
    rw [dif_pos hlt, if_neg (by omega)]

/-- Witness for C1: the amended theorem applied at the concrete ended poll
(`endTime = 100`, current time 1000). -/
theorem pollEnded_not_prechecked_wit :
    ((submitVote relayerAddr exampleLedger exampleRequest).response =
        ⟨200, true, voteSubmittedMsg⟩ ∧
      LedgerCall.metaVote 1 0 (JVal.jstr "0xVoterA") voteTxOptions ∈
        (submitVote relayerAddr exampleLedger exampleRequest).calls) ∧
    processVote 1000 exampleVotingState 0 0 0xABCD = Except.error "Poll ended" := by
  have h := pollEnded_not_prechecked 1000 relayerAddr exampleLedger exampleRequest
    1 0 "0xVoterA" examplePoll rfl (by decide) rfl (by decide) (by decide)
    rfl rfl (by decide) (by decide) (by decide) rfl (by decide) (by decide) rfl
  exact ⟨h.1, h.2 exampleVotingState 0 0 0xABCD (by decide) (by decide)⟩

/-- C2 (counterexample): a concrete submit-vote request for a poll with
`voterCount = maxVoters = 10`, with every other field valid, is NOT rejected
with a "poll full" reason: the handler replies success 200 and submits the
`metaVote` transaction — the handler never compares `voterCount` with
`maxVoters`. -/
theorem pollFull_cex :
    fullEndedPoll.voterCount = fullEndedPoll.maxVoters ∧
    fullEndedLedger.getPollDetails 1 = some fullEndedPoll ∧
    submitVote relayerAddr fullEndedLedger exampleRequest =
      ⟨⟨200, true, voteSubmittedMsg⟩,
       [LedgerCall.getPollDetails 1, LedgerCall.hasVoted 1 (JVal.jstr "0xVoterA"),
        LedgerCall.getBalance,
        LedgerCall.metaVote 1 0 (JVal.jstr "0xVoterA") voteTxOptions]⟩ := by
  refine ⟨by decide, by decide, by decide⟩

/-- C2 (amended): the relayer performs no poll-full eligibility check.  For
every request whose poll (as read from the ledger) has
`voterCount = maxVoters` but which passes the checks the handler does
perform, the handler submits the transaction and replies success; the
rejection lives solely in the contract, whose `_processVote` reverts with
"Max voters reached" (there is no "poll full" reason anywhere in the code)
whenever `voterCount ≥ maxVoters` for a live poll with a valid candidate. -/
theorem pollFull_not_prechecked (wallet : String) (L : Ledger)
    (req : VoteRequest) (pid cid : Int) (v : String) (d : PollDetails)
    (h1 : truthy req.pollId = true) (h2 : req.candidateId ≠ JVal.undef)
    (hv : req.voter = JVal.jstr v) (hvne : v ≠ "")
    (h4 : truthy req.signature = true)
    (hpid : toBigNumber req.pollId = some pid)
    (hcid : toBigNumber req.candidateId = some cid)
    (hd : L.getPollDetails pid = some d)
    (_hfull : d.voterCount = d.maxVoters)
    (hcand : cid < (d.candidateCount : Int))
    (hvoted : L.hasVotedRes pid (JVal.jstr v) = some false)
    (hbal : estimatedGasCost ≤ L.balanceRes.getD 0)
    (hself : jsToLower v ≠ jsToLower wallet)
    (hacc : L.metaVoteRes = none) :
    ((submitVote wallet L req).response = ⟨200, true, voteSubmittedMsg⟩ ∧
      LedgerCall.metaVote pid cid (JVal.jstr v) voteTxOptions ∈
        (submitVote wallet L req).calls) ∧
    (∀ (now : Nat) (st : VotingState) (pollId candidateId voterAddr : Nat)
        (hlt : pollId < st.polls.length),
        now ≤ st.polls[pollId].endTime →
        candidateId < st.polls[pollId].candidateCount →
        st.polls[pollId].maxVoters ≤ st.polls[pollId].voterCount →
        processVote now st pollId candidateId voterAddr =
          Except.error "Max voters reached") := by
  have hgate : ∀ d', L.getPollDetails pid = some d' → cid < (d'.candidateCount : Int) := by
    intro d' hd'
    rw [hd] at hd'
    cases hd'
    exact hcand
  have hrun := submitVote_past_checks wallet L req pid cid v h1 h2 hv hvne h4
    hpid hcid hgate hvoted hbal hself
  constructor
  · rw [hrun, hacc]
    exact ⟨rfl, by simp⟩
  · intro now st pollId candidateId voterAddr hlt hlive hcd hmax
    unfold processVote
    rw [dif_pos hlt, if_pos hlive, if_pos hcd, if_neg (by omega)]

/-- Witness for C2: the amended theorem applied at the concrete full poll
(`voterCount = maxVoters = 10`). -/
theorem pollFull_not_prechecked_wit :
    ((submitVote relayerAddr fullEndedLedger exampleRequest).response =
        ⟨200, true, voteSubmittedMsg⟩ ∧
      LedgerCall.metaVote 1 0 (JVal.jstr "0xVoterA") voteTxOptions ∈
        (submitVote relayerAddr fullEndedLedger exampleRequest).calls) ∧
    processVote 1500 fullVotingState 0 0 0xABCD =
      Except.error "Max voters reached" := by
  have h := pollFull_not_prechecked relayerAddr fullEndedLedger exampleRequest
    1 0 "0xVoterA" fullEndedPoll rfl (by decide) rfl (by decide) (by decide)
    rfl rfl (by decide) (by decide) (by decide) rfl (by decide) (by decide) rfl
  exact ⟨h.1, h.2 1500 fullVotingState 0 0 0xABCD (by decide) (by decide)
    (by decide) (by decide)⟩

/-- C4 (counterexample): a request whose voter IS the relayer wallet, on a
ledger where that voter has already voted, is rejected with the
"already voted" message, not with the "relayer cannot vote" message — the
self-vote check runs only after the already-voted (and balance) checks, so
the claimed "regardless of all other conditions" fails. -/
theorem selfVote_cex :
    selfVoteRequest.voter = JVal.jstr relayerAddr ∧
    submitVote relayerAddr votedLedger selfVoteRequest =
      ⟨⟨400, false, alreadyVotedMsg⟩,
       [LedgerCall.getPollDetails 1, LedgerCall.hasVoted 1 (JVal.jstr relayerAddr)]⟩ ∧
    alreadyVotedMsg ≠ relayerCannotVoteMsg := by
  refine ⟨by decide, by decide, by decide⟩

/-- C4 (amended): if the voter address equals the relayer wallet address
case-insensitively AND the checks the handler runs first all pass — the
fields are present and convertible, the candidate gate passes, the voter has
NOT already voted, and the relayer balance covers the gas estimate — then
the request is rejected 400 with the "relayer cannot vote" message and no
transaction is submitted. -/
theorem selfVote_rejected (wallet : String) (L : Ledger) (req : VoteRequest)
    (pid cid : Int) (v : String)
    (h1 : truthy req.pollId = true) (h2 : req.candidateId ≠ JVal.undef)
    (hv : req.voter = JVal.jstr v) (hvne : v ≠ "")
    (h4 : truthy req.signature = true)
    (hpid : toBigNumber req.pollId = some pid)
    (hcid : toBigNumber req.candidateId = some cid)
    (hgate : ∀ d, L.getPollDetails pid = some d → cid < (d.candidateCount : Int))
    (hvoted : L.hasVotedRes pid (JVal.jstr v) = some false)
    (hbal : estimatedGasCost ≤ L.balanceRes.getD 0)
    (hself : jsToLower v = jsToLower wallet) :
    submitVote wallet L req =
      ⟨⟨400, false, relayerCannotVoteMsg⟩,
       [LedgerCall.getPollDetails pid, LedgerCall.hasVoted pid (JVal.jstr v),
        LedgerCall.getBalance]⟩ ∧
    (submitVote wallet L req).calls.all (fun c => !isMetaVote c) = true := by
  have hvt : truthy req.voter = true := by
    rw [hv]; simpa [truthy] using hvne
  have hrun : submitVote wallet L req =
      ⟨⟨400, false, relayerCannotVoteMsg⟩,
       [LedgerCall.getPollDetails pid, LedgerCall.hasVoted pid (JVal.jstr v),
        LedgerCall.getBalance]⟩ := by
    unfold submitVote
    rw [if_neg (by simp [h1, h2, hvt, h4])]
    rw [hpid, hcid]
    rcases hLd : L.getPollDetails pid with _ | d
    · simp only [hLd, hv, hvoted]
      rw [if_neg (Nat.not_lt.mpr hbal)]
      rw [if_pos hself]
      rfl
    · have hcd : ¬ ((d.candidateCount : Int) ≤ cid) := not_le.mpr (hgate d hLd)
      simp only [hLd, if_neg hcd, hv, hvoted]
      rw [if_neg (Nat.not_lt.mpr hbal)]
      rw [if_pos hself]
      rfl
  refine ⟨hrun, ?_⟩
  rw [hrun]
  rfl

/-- Witness for C4: the amended theorem at the concrete self-vote request on
a ledger where the relayer has not yet voted and funds suffice. -/
theorem selfVote_rejected_wit :
    submitVote relayerAddr exampleLedger selfVoteRequest =
      ⟨⟨400, false, relayerCannotVoteMsg⟩,
       [LedgerCall.getPollDetails 1, LedgerCall.hasVoted 1 (JVal.jstr relayerAddr),
        LedgerCall.getBalance]⟩ ∧
    (submitVote relayerAddr exampleLedger selfVoteRequest).calls.all
      (fun c => !isMetaVote c) = true := by
  exact selfVote_rejected relayerAddr exampleLedger selfVoteRequest 1 0 relayerAddr
    rfl (by decide) rfl (by decide) (by decide) rfl rfl
    (by intro d hd; simp [exampleLedger] at hd; simp [← hd, examplePoll])
    rfl (by decide) rfl

/-- C5 (confirmed): whenever the ledger's `hasVoted` check reports `true`
for the request's voter (and the request survives the earlier validation and
candidate gates), the handler replies 400 "Voter has already voted in this
poll", its ledger calls are exactly the poll lookup and the `hasVoted`
check, and in particular no `metaVote` submission is ever sent. -/
theorem alreadyVoted_rejected (wallet : String) (L : Ledger) (req : VoteRequest)
    (pid cid : Int)
    (h1 : truthy req.pollId = true) (h2 : req.candidateId ≠ JVal.undef)
    (h3 : truthy req.voter = true) (h4 : truthy req.signature = true)
    (hpid : toBigNumber req.pollId = some pid)
    (hcid : toBigNumber req.candidateId = some cid)
    (hgate : ∀ d, L.getPollDetails pid = some d → cid < (d.candidateCount : Int))
    (hvoted : L.hasVotedRes pid req.voter = some true) :
    submitVote wallet L req =
      ⟨⟨400, false, alreadyVotedMsg⟩,
       [LedgerCall.getPollDetails pid, LedgerCall.hasVoted pid req.voter]⟩ ∧
    (submitVote wallet L req).calls.all (fun c => !isMetaVote c) = true := by
  have hrun : submitVote wallet L req =
      ⟨⟨400, false, alreadyVotedMsg⟩,
       [LedgerCall.getPollDetails pid, LedgerCall.hasVoted pid req.voter]⟩ := by
    unfold submitVote
    rw [if_neg (by simp [h1, h2, h3, h4])]
    rw [hpid, hcid]
    rcases hLd : L.getPollDetails pid with _ | d
    · simp only [hLd, hvoted]
      rfl
    · have hcd : ¬ ((d.candidateCount : Int) ≤ cid) := not_le.mpr (hgate d hLd)
      simp only [hLd, if_neg hcd, hvoted]
      rfl
  refine ⟨hrun, ?_⟩
  rw [hrun]
  rfl

/-- Witness for C5: the theorem at the concrete request on the ledger where
everyone has voted. -/
theorem alreadyVoted_rejected_wit :
    submitVote relayerAddr votedLedger exampleRequest =
      ⟨⟨400, false, alreadyVotedMsg⟩,
       [LedgerCall.getPollDetails 1, LedgerCall.hasVoted 1 (JVal.jstr "0xVoterA")]⟩ ∧
    (submitVote relayerAddr votedLedger exampleRequest).calls.all
      (fun c => !isMetaVote c) = true := by
  exact alreadyVoted_rejected relayerAddr votedLedger exampleRequest 1 0
    rfl (by decide) (by decide) (by decide) rfl rfl
    (by intro d hd; simp [votedLedger, exampleLedger] at hd; simp [← hd, examplePoll])
    rfl

/-- C6 (counterexample): a request whose `voter` field is the number 42 —
present (truthy) but not well-typed — is NOT rejected with a 400 before
ledger interaction: the handler performs two ledger calls
(`getPollDetails`, then `hasVoted`, which throws on the bad address) and
replies 500, not a client-input 400 with zero ledger calls. -/
theorem malformedVoter_reaches_ledger_cex :
    submitVote relayerAddr strictLedger
        ⟨JVal.jnum 1, JVal.jnum 0, JVal.jnum 42, JVal.jstr "0xSigBytes", []⟩ =
      ⟨⟨500, false, "Failed to check voter status"⟩,
       [LedgerCall.getPollDetails 1, LedgerCall.hasVoted 1 (JVal.jnum 42)]⟩ := by
  decide

/-- C6 (amended): the boundary validation rejects, with HTTP 400 and zero
ledger calls, exactly (a) requests failing the presence test (`!pollId`,
`candidateId === undefined`, `!voter`, `!signature`) and (b) requests whose
`pollId` or `candidateId` is not numerically convertible; the types of
`voter` and `signature` are never validated, so an ill-typed truthy value
there proceeds to ledger interaction. -/
theorem validation_rejects_without_ledger (wallet : String) (L : Ledger)
    (req : VoteRequest) :
    ((¬ truthy req.pollId ∨ req.candidateId = JVal.undef ∨
        ¬ truthy req.voter ∨ ¬ truthy req.signature) →
      submitVote wallet L req = ⟨⟨400, false, missingParamsMsg⟩, []⟩) ∧
    (truthy req.pollId → req.candidateId ≠ JVal.undef →
      truthy req.voter → truthy req.signature →
      (toBigNumber req.pollId = none ∨ toBigNumber req.candidateId = none) →
      submitVote wallet L req = ⟨⟨400, false, invalidParamsMsg⟩, []⟩) := by
  constructor
  · intro h
    unfold submitVote
    rw [if_pos h]
  · intro t1 t2 t3 t4 hconv
    unfold submitVote
    rw [if_neg (by simp [t1, t2, t3, t4])]
    rcases hconv with hp | hc
    · rw [hp]
    · rw [hc]
      cases toBigNumber req.pollId <;> rfl

/-- Witness for C6: the missing-signature scenario and a non-numeric pollId,
both rejected 400 with no ledger calls. -/
theorem validation_rejects_without_ledger_wit :
    submitVote relayerAddr exampleLedger
        ⟨JVal.jnum 1, JVal.jnum 0, JVal.jstr "0xVoterA", JVal.undef, []⟩ =
      ⟨⟨400, false, missingParamsMsg⟩, []⟩ ∧
    submitVote relayerAddr exampleLedger
        ⟨JVal.jstr "abc", JVal.jnum 0, JVal.jstr "0xVoterA", JVal.jstr "0xSigBytes", []⟩ =
      ⟨⟨400, false, invalidParamsMsg⟩, []⟩ := by
  exact ⟨(validation_rejects_without_ledger relayerAddr exampleLedger _).1 (by decide),
    (validation_rejects_without_ledger relayerAddr exampleLedger _).2
      (by decide) (by decide) (by decide) (by decide) (by decide)⟩

/-- C7 (confirmed): on a ledger that never yields a receipt, the monitor
makes exactly 5 receipt checks on the original transaction, rescheduled
with strictly increasing delays, then submits exactly one replacement that
reuses the original transaction's nonce with a strictly higher
`maxFeePerGas` (100 gwei > 80 gwei) and `maxPriorityFeePerGas`
(35 gwei > 30 gwei), makes one receipt check on the replacement, and
terminates. -/
theorem stuck_monitor_bounded (L : MonLedger) (otx : OrigTx)
    (hrec : ∀ a, L.receiptAt a = ReceiptRes.pending)
    (htx : L.getTransaction = some otx)
    (hacc : L.replaceRes = none) :
    runMonitor L =
      ⟨5, [5000, 10000, 15000, 20000], [replacementTxOptions otx.nonce], 1,
        MonOutcome.replaced otx.nonce⟩ ∧
    (replacementTxOptions otx.nonce).nonce = some otx.nonce ∧
    voteTxOptions.maxFeePerGas < (replacementTxOptions otx.nonce).maxFeePerGas ∧
    voteTxOptions.maxPriorityFeePerGas <
      (replacementTxOptions otx.nonce).maxPriorityFeePerGas ∧
    List.Chain' (fun x y => x < y) [5000, 10000, 15000, 20000] := by
  refine ⟨?_, rfl, by norm_num [voteTxOptions, replacementTxOptions],
    by norm_num [voteTxOptions, replacementTxOptions],
    by norm_num [List.chain'_cons]⟩
  unfold runMonitor
  simp [monitorLoop, maxConfirmationAttempts, hrec, htx, hacc]

/-- Witness for C7: the theorem at the concrete never-confirming ledger. -/
theorem stuck_monitor_bounded_wit :
    runMonitor stuckLedger =
      ⟨5, [5000, 10000, 15000, 20000], [replacementTxOptions 7], 1,
        MonOutcome.replaced 7⟩ ∧
    (replacementTxOptions 7).nonce = some 7 ∧
    voteTxOptions.maxFeePerGas < (replacementTxOptions 7).maxFeePerGas ∧
    voteTxOptions.maxPriorityFeePerGas < (replacementTxOptions 7).maxPriorityFeePerGas ∧
    List.Chain' (fun x y => x < y) [5000, 10000, 15000, 20000] :=
  stuck_monitor_bounded stuckLedger ⟨7⟩ (fun _ => rfl) rfl rfl

/-- C8 (counterexample): when the submission fails with a nonce-conflict
message, the relayer does NOT retry with a fresh sequence number: it makes
exactly one `metaVote` attempt and surfaces the nonce error to the caller
as HTTP 500 "Transaction nonce error. Please try again.". -/
theorem nonceConflict_cex :
    strContains "nonce too low" "nonce" = true ∧
    submitVote relayerAddr nonceErrLedger exampleRequest =
      ⟨⟨500, false, "Transaction nonce error. Please try again."⟩,
       [LedgerCall.getPollDetails 1, LedgerCall.hasVoted 1 (JVal.jstr "0xVoterA"),
        LedgerCall.getBalance,
        LedgerCall.metaVote 1 0 (JVal.jstr "0xVoterA") voteTxOptions]⟩ ∧
    (submitVote relayerAddr nonceErrLedger exampleRequest).calls.countP
      (fun c => isMetaVote c) = 1 := by
  refine ⟨by decide, by decide, by decide⟩

/-- C8 (amended): on a submission error whose message contains "nonce" (and
matches none of the earlier substring cases of the catch chain), the handler
surfaces HTTP 500 "Transaction nonce error. Please try again." to the
caller, telling the caller to retry, after exactly one `metaVote` attempt —
the relayer performs no fresh-nonce retry of its own. -/
theorem nonceConflict_surfaced (wallet : String) (L : Ledger) (req : VoteRequest)
    (pid cid : Int) (v : String) (m : String)
    (h1 : truthy req.pollId = true) (h2 : req.candidateId ≠ JVal.undef)
    (hv : req.voter = JVal.jstr v) (hvne : v ≠ "")
    (h4 : truthy req.signature = true)
    (hpid : toBigNumber req.pollId = some pid)
    (hcid : toBigNumber req.candidateId = some cid)
    (hgate : ∀ d, L.getPollDetails pid = some d → cid < (d.candidateCount : Int))
    (hvoted : L.hasVotedRes pid (JVal.jstr v) = some false)
    (hbal : estimatedGasCost ≤ L.balanceRes.getD 0)
    (hself : jsToLower v ≠ jsToLower wallet)
    (hm : L.metaVoteRes = some m)
    (hn : strContains m "nonce" = true)
    (c1 : strContains m "Bad signature" = false)
    (c2 : strContains m "Already voted" = false)
    (c3 : strContains m "Insufficient relayer funds" = false)
    (c4 : strContains m "doesn\x27t have enough funds" = false)
    (c5 : strContains m "insufficient funds" = false) :
    (submitVote wallet L req).response =
      ⟨500, false, "Transaction nonce error. Please try again."⟩ ∧
    (submitVote wallet L req).calls.countP (fun c => isMetaVote c) = 1 := by
  have hrun := submitVote_past_checks wallet L req pid cid v h1 h2 hv hvne h4
    hpid hcid hgate hvoted hbal hself
  rw [hrun, hm]
  constructor
  · simp [classifySubmitError, c1, c2, c3, c4, c5, hn]
  · rfl

/-- Witness for C8: the amended theorem at the concrete nonce-error ledger. -/
theorem nonceConflict_surfaced_wit :
    (submitVote relayerAddr nonceErrLedger exampleRequest).response =
      ⟨500, false, "Transaction nonce error. Please try again."⟩ ∧
    (submitVote relayerAddr nonceErrLedger exampleRequest).calls.countP
      (fun c => isMetaVote c) = 1 := by
  exact nonceConflict_surfaced relayerAddr nonceErrLedger exampleRequest 1 0
    "0xVoterA" "nonce too low"
    rfl (by decide) rfl (by decide) (by decide) rfl rfl
    (by intro d hd; simp [nonceErrLedger, exampleLedger] at hd; simp [← hd, examplePoll])
    rfl (by decide) (by decide) rfl
    (by decide) (by decide) (by decide) (by decide) (by decide) (by decide)

/-- C9 (confirmed): in every run of the submit-vote handler, every
`metaVote` it submits carries exactly the fixed options (gas limit 500000,
`maxFeePerGas` 80 gwei, `maxPriorityFeePerGas` 30 gwei, no explicit nonce);
the handler never calls gas estimation or the live suggested fee, and its
entire behaviour is unchanged under any value of the network's suggested
fee. -/
theorem fixed_gas_and_fees (wallet : String) (L : Ledger) (req : VoteRequest)
    (g : Nat) :
    (submitVote wallet L req).calls.all submitCallOk = true ∧
    submitVote wallet { L with suggestedGasPrice := g } req =
      submitVote wallet L req ∧
    voteTxOptions = ⟨500000, 80 * 10 ^ 9, 30 * 10 ^ 9, none⟩ := by
  refine ⟨?_, rfl, rfl⟩
  unfold submitVote
  dsimp only
  repeat' split
  all_goals rfl

/-- C10 (confirmed): the presence test for `pollId` is a truthiness check
(`!pollId`), so `pollId = 0` — or any falsy value — is rejected as
"Missing required parameters" with HTTP 400 and zero ledger calls, while
`candidateId` is tested with `=== undefined`, so `candidateId = 0` passes
the boundary and the handler proceeds to the ledger. -/
theorem pollId_truthiness_gate (wallet : String) (L : Ledger) :
    (∀ (cid v s : JVal) (mp : List String),
        submitVote wallet L ⟨JVal.jnum 0, cid, v, s, mp⟩ =
          ⟨⟨400, false, missingParamsMsg⟩, []⟩) ∧
    (∀ (pv cid v s : JVal) (mp : List String), truthy pv = false →
        submitVote wallet L ⟨pv, cid, v, s, mp⟩ =
          ⟨⟨400, false, missingParamsMsg⟩, []⟩) ∧
    (∀ (v s : JVal) (mp : List String), truthy v = true → truthy s = true →
        (submitVote wallet L ⟨JVal.jnum 1, JVal.jnum 0, v, s, mp⟩).calls.take 1 =
          [LedgerCall.getPollDetails 1]) := by
  refine ⟨?_, ?_, ?_⟩
  · intro cid v s mp
    unfold submitVote
    rw [if_pos (Or.inl (by simp [truthy]))]
  · intro pv cid v s mp h
    unfold submitVote
    rw [if_pos (Or.inl (by simp [h]))]
  · intro v s mp hv hs
    unfold submitVote
    rw [if_neg (by simp only [hv, hs]; decide)]
    dsimp only [toBigNumber]
    repeat' split
    all_goals rfl

/-- Witness for C10: `pollId = 0` is rejected with no ledger call, while
the same request with `pollId = 1` and `candidateId = 0` reaches the poll
lookup. -/
theorem pollId_truthiness_gate_wit :
    submitVote relayerAddr exampleLedger
        ⟨JVal.jnum 0, JVal.jnum 0, JVal.jstr "0xVoterA", JVal.jstr "0xSigBytes", []⟩ =
      ⟨⟨400, false, missingParamsMsg⟩, []⟩ ∧
    (submitVote relayerAddr exampleLedger exampleRequest).calls.take 1 =
      [LedgerCall.getPollDetails 1] := by
  exact ⟨(pollId_truthiness_gate relayerAddr exampleLedger).1 _ _ _ _,
    (pollId_truthiness_gate relayerAddr exampleLedger).2.2
      (JVal.jstr "0xVoterA") (JVal.jstr "0xSigBytes") [] (by decide) (by decide)⟩
